import Mathlib

/-! Verification development for the Deep Logistics shipment-tracking
front-end script (src/main/static/main/js/script.js).

The script has three independent pieces of behaviour:
1. a splash-screen controller that, on the load event, waits 3000 ms,
   sets the splash element opacity to 0, and after a further 1000 ms sets
   its display to none;
2. a tracking-form submit handler that prevents the default navigation,
   issues one GET request to the current pathname with the consignment
   number as a query parameter, parses the body as JSON and renders either
   a success panel, a failure panel with the message field, or (on a
   rejected or unparseable response) a fixed error panel;
3. a homepage search-form submit handler that prevents the default
   navigation and, when the input is non-empty, navigates to the tracking
   page with the input as a query parameter.

DOM writes, console output, issued requests and navigation are modelled as
an explicit effects record returned by each handler, and the outcome of the
asynchronous fetch chain is passed in as an explicit value. -/

namespace DeepLogistics

/-- The consignment value object received from the backend, with the seven
string fields interpolated by the success template (spec section 3). -/
structure Consignment where
  consignment_number : String
  status : String
  origin : String
  destination : String
  current_location : String
  estimated_delivery : String
  updated_at : String

/-- A JSON response body as the handler reads it: the status field, the
optional nested consignment object, and the optional message field.
A missing field reads as undefined in JavaScript, hence the options. -/
structure TrackingData where
  status : String
  consignment : Option Consignment
  message : Option String

/-- JavaScript template-literal interpolation of a possibly-undefined
value: a missing field renders as the text undefined. -/
def jsStr : Option String → String
  | some s => s
  | none => "undefined"

/-- Outcome of the fetch-then-json chain: either the body parsed as JSON,
or a rejection (network failure or a body that is not valid JSON), carrying
the error text. -/
inductive FetchResult where
  | resolved (data : TrackingData)
  | rejected (err : String)

/-- One HTTP request issued by a handler. -/
structure Request where
  method : String
  url : String

/-- The observable effects of one submit-handler invocation: whether the
default form navigation was suppressed, the requests issued, the value
written to the tracking-result element innerHTML (if any), the console
error lines produced, and the new page location (if navigation happened). -/
structure HandlerEffects where
  defaultPrevented : Bool
  requests : List Request
  innerHTML : Option String
  consoleErrors : List String
  location : Option String

/-- The fetch URL built on line 27 of script.js by raw template-literal
concatenation: pathname, the literal query prefix, then the input value,
with no encoding applied. -/
def fetchUrl (pathname : String) (consignmentNumber : String) : String :=
  pathname ++ "?consignment_number=" ++ consignmentNumber

/-- Fixed text fragments of the success template literal
(script.js lines 31 to 43), in order, including its exact whitespace. -/
def tplOpen : String :=
  "\n                            <div class=\"alert alert-success\">\n                                "

/-- Heading fragment before the consignment number. -/
def tplH4Label : String := "<h4>Tracking Details for "

/-- Fragment between the consignment number and the status label. -/
def tplH4Close : String := "</h4>\n                                "

/-- Labeled heading before the status field. -/
def tplStatusLabel : String := "<p><strong>Status:</strong> "

/-- Fragment closing one field paragraph and indenting the next line. -/
def tplPClose : String := "</p>\n                                "

/-- Labeled heading before the origin field. -/
def tplOriginLabel : String := "<p><strong>Origin:</strong> "

/-- Labeled heading before the destination field. -/
def tplDestinationLabel : String := "<p><strong>Destination:</strong> "

/-- Labeled heading before the current-location field. -/
def tplCurrentLocationLabel : String := "<p><strong>Current Location:</strong> "

/-- Labeled heading before the estimated-delivery field. -/
def tplEstimatedDeliveryLabel : String := "<p><strong>Estimated Delivery:</strong> "

/-- Labeled heading before the last-updated field. -/
def tplUpdatedLabel : String := "<p><em>Last Updated: "

/-- Closing fragment of the success template. -/
def tplClose : String :=
  "</em></p>\n                            </div>\n                        "

/-- The success panel assigned to innerHTML on lines 31 to 43 of
script.js: the template literal with the seven consignment fields
interpolated verbatim, no escaping applied. -/
def renderSuccess (c : Consignment) : String :=
  tplOpen ++ tplH4Label ++ c.consignment_number ++ tplH4Close
    ++ tplStatusLabel ++ c.status ++ tplPClose
    ++ tplOriginLabel ++ c.origin ++ tplPClose
    ++ tplDestinationLabel ++ c.destination ++ tplPClose
    ++ tplCurrentLocationLabel ++ c.current_location ++ tplPClose
    ++ tplEstimatedDeliveryLabel ++ c.estimated_delivery ++ tplPClose
    ++ tplUpdatedLabel ++ c.updated_at ++ tplClose

/-- The failure panel assigned on line 44 of script.js, interpolating the
response message verbatim. -/
def renderFailure (message : String) : String :=
  "<div class=\"alert alert-danger\">" ++ message ++ "</div>"

/-- The fixed error panel assigned in the catch branch on line 49 of
script.js. -/
def renderError : String :=
  "<div class=\"alert alert-danger\">An error occurred. Please try again.</div>"

/-- The tracking-form submit handler (script.js lines 21 to 52), as a
function of the current pathname, the consignment-number input value and
the outcome of the fetch chain. It prevents the default navigation, issues
one GET request to fetchUrl, and on resolution branches on the status
field: success with a present consignment renders the success panel;
success with an absent consignment throws a TypeError while reading a
field of undefined, which rejects the promise chain and lands in the catch
branch; any other status renders the failure panel with the message field.
A rejected chain logs the error and renders the fixed error panel. The
handler never navigates and writes only the tracking-result element. -/
def trackingSubmit (pathname : String) (consignmentNumber : String)
    (fetched : FetchResult) : HandlerEffects :=
  let url := fetchUrl pathname consignmentNumber
  match fetched with
  | FetchResult.resolved data =>
    if data.status = "success" then
      match data.consignment with
      | some c =>
        { defaultPrevented := true
          requests := [{ method := "GET", url := url }]
          innerHTML := some (renderSuccess c)
          consoleErrors := []
          location := none }
      | none =>
        { defaultPrevented := true
          requests := [{ method := "GET", url := url }]
          innerHTML := some renderError
          consoleErrors := ["Error: TypeError: cannot read properties of undefined"]
          location := none }
    else
      { defaultPrevented := true
        requests := [{ method := "GET", url := url }]
        innerHTML := some (renderFailure (jsStr data.message))
        consoleErrors := []
        location := none }
  | FetchResult.rejected err =>
    { defaultPrevented := true
      requests := [{ method := "GET", url := url }]
      innerHTML := some renderError
      consoleErrors := ["Error: " ++ err]
      location := none }

/-- The redirect URL built on line 62 of script.js by raw template-literal
concatenation, with no encoding applied to the input value. -/
def homeRedirectUrl (trackingId : String) : String :=
  "/track-consignment/?consignment_number=" ++ trackingId

/-- The homepage search-form submit handler (script.js lines 55 to 66): it
prevents the default navigation, reads the home-tracking-id input value
and, when that value is truthy (a non-empty string), navigates to the
tracking page with the value as a query parameter; otherwise it does
nothing further. -/
def homeSubmit (trackingId : String) : HandlerEffects :=
  { defaultPrevented := true
    requests := []
    innerHTML := none
    consoleErrors := []
    location :=
      if trackingId ≠ "" then some (homeRedirectUrl trackingId) else none }

/-- The splash dwell delay of the outer setTimeout (script.js line 11). -/
def splashDwellMs : Nat := 3000

/-- The fade delay of the inner setTimeout (script.js line 10). -/
def splashFadeMs : Nat := 1000

/-- The style mutations scheduled by the load handler (script.js lines 2
to 13) when the splash element is present, as pairs of an absolute firing
time in milliseconds after load (timers modelled as firing at their
scheduled delays) and the CSS property and value written: the outer timer
sets opacity to 0 at the dwell delay, and the inner timer, scheduled at
that moment, sets display to none a further fade delay later. An absent
element schedules nothing. -/
def splashLoadActions (splashPresent : Bool) : List (Nat × String × String) :=
  if splashPresent then
    [(splashDwellMs, ("opacity", "0")),
     (splashDwellMs + splashFadeMs, ("display", "none"))]
  else []

/-- The string s occurs verbatim, character for character, as a contiguous
substring of t. -/
def containsSub (t s : String) : Prop := ∃ a b : String, t = a ++ s ++ b

/-- Query-parameter extraction under standard URL semantics, modelling
what the backend receives: the query component lies between the first
question mark and the first hash. -/
def afterChar (sep : Char) : List Char → List Char
  | [] => []
  | c :: cs => if c = sep then cs else afterChar sep cs

/-- Truncate a character list at the first occurrence of a stop character. -/
def takeUntil (stop : Char) : List Char → List Char
  | [] => []
  | c :: cs => if c = stop then [] else c :: takeUntil stop cs

/-- Split a character list on a separator character. -/
def splitOnChar (sep : Char) : List Char → List (List Char)
  | [] => [[]]
  | c :: cs =>
    if c = sep then [] :: splitOnChar sep cs
    else
      match splitOnChar sep cs with
      | [] => [[c]]
      | h :: t => (c :: h) :: t

/-- The value of the first query parameter called name in url, under
standard URL semantics: the query component lies between the first
question mark and the first hash, parameters are separated by ampersands,
and each parameter is a name, an equals sign and a value. No
percent-decoding is applied. -/
def paramValue (url : String) (name : String) : Option String :=
  let query := takeUntil '#' (afterChar '?' url.data)
  (splitOnChar '&' query).findSome? fun p =>
    if takeUntil '=' p = name.data then
      some (String.mk (afterChar '=' p))
    else none

/-- A sample consignment used as concrete input by witnesses. -/
def sampleConsignment : Consignment :=
  { consignment_number := "CN123"
    status := "In Transit"
    origin := "Mumbai"
    destination := "Delhi"
    current_location := "Nagpur"
    estimated_delivery := "2025-01-10"
    updated_at := "2025-01-05" }

/-- A sample successful response used as concrete input by witnesses. -/
def sampleSuccessData : TrackingData :=
  { status := "success", consignment := some sampleConsignment, message := none }

theorem containsSub_drop_label (t l v : String)
    (h : containsSub t (l ++ v)) : containsSub t v := by
  obtain ⟨a, b, hab⟩ := h
  exact ⟨a ++ l, b, by rw [hab]; simp [String.append_assoc]⟩

theorem renderSuccess_contains_labeled (c : Consignment) :
    containsSub (renderSuccess c) (tplH4Label ++ c.consignment_number)
    ∧ containsSub (renderSuccess c) (tplStatusLabel ++ c.status)
    ∧ containsSub (renderSuccess c) (tplOriginLabel ++ c.origin)
    ∧ containsSub (renderSuccess c) (tplDestinationLabel ++ c.destination)
    ∧ containsSub (renderSuccess c) (tplCurrentLocationLabel ++ c.current_location)
    ∧ containsSub (renderSuccess c) (tplEstimatedDeliveryLabel ++ c.estimated_delivery)
    ∧ containsSub (renderSuccess c) (tplUpdatedLabel ++ c.updated_at) := by
  refine ⟨⟨tplOpen,
      tplH4Close ++ tplStatusLabel ++ c.status ++ tplPClose
        ++ tplOriginLabel ++ c.origin ++ tplPClose
        ++ tplDestinationLabel ++ c.destination ++ tplPClose
        ++ tplCurrentLocationLabel ++ c.current_location ++ tplPClose
        ++ tplEstimatedDeliveryLabel ++ c.estimated_delivery ++ tplPClose
        ++ tplUpdatedLabel ++ c.updated_at ++ tplClose,
      by simp [renderSuccess, String.append_assoc]⟩,
    ⟨tplOpen ++ tplH4Label ++ c.consignment_number ++ tplH4Close,
      tplPClose
        ++ tplOriginLabel ++ c.origin ++ tplPClose
        ++ tplDestinationLabel ++ c.destination ++ tplPClose
        ++ tplCurrentLocationLabel ++ c.current_location ++ tplPClose
        ++ tplEstimatedDeliveryLabel ++ c.estimated_delivery ++ tplPClose
        ++ tplUpdatedLabel ++ c.updated_at ++ tplClose,
      by simp [renderSuccess, String.append_assoc]⟩,
    ⟨tplOpen ++ tplH4Label ++ c.consignment_number ++ tplH4Close
        ++ tplStatusLabel ++ c.status ++ tplPClose,
      tplPClose
        ++ tplDestinationLabel ++ c.destination ++ tplPClose
        ++ tplCurrentLocationLabel ++ c.current_location ++ tplPClose
        ++ tplEstimatedDeliveryLabel ++ c.estimated_delivery ++ tplPClose
        ++ tplUpdatedLabel ++ c.updated_at ++ tplClose,
      by simp [renderSuccess, String.append_assoc]⟩,
    ⟨tplOpen ++ tplH4Label ++ c.consignment_number ++ tplH4Close
        ++ tplStatusLabel ++ c.status ++ tplPClose
        ++ tplOriginLabel ++ c.origin ++ tplPClose,
      tplPClose
        ++ tplCurrentLocationLabel ++ c.current_location ++ tplPClose
        ++ tplEstimatedDeliveryLabel ++ c.estimated_delivery ++ tplPClose
        ++ tplUpdatedLabel ++ c.updated_at ++ tplClose,
      by simp [renderSuccess, String.append_assoc]⟩,
    ⟨tplOpen ++ tplH4Label ++ c.consignment_number ++ tplH4Close
        ++ tplStatusLabel ++ c.status ++ tplPClose
        ++ tplOriginLabel ++ c.origin ++ tplPClose
        ++ tplDestinationLabel ++ c.destination ++ tplPClose,
      tplPClose
        ++ tplEstimatedDeliveryLabel ++ c.estimated_delivery ++ tplPClose
        ++ tplUpdatedLabel ++ c.updated_at ++ tplClose,
      by simp [renderSuccess, String.append_assoc]⟩,
    ⟨tplOpen ++ tplH4Label ++ c.consignment_number ++ tplH4Close
        ++ tplStatusLabel ++ c.status ++ tplPClose
        ++ tplOriginLabel ++ c.origin ++ tplPClose
        ++ tplDestinationLabel ++ c.destination ++ tplPClose
        ++ tplCurrentLocationLabel ++ c.current_location ++ tplPClose,
      tplPClose ++ tplUpdatedLabel ++ c.updated_at ++ tplClose,
      by simp [renderSuccess, String.append_assoc]⟩,
    ⟨tplOpen ++ tplH4Label ++ c.consignment_number ++ tplH4Close
        ++ tplStatusLabel ++ c.status ++ tplPClose
        ++ tplOriginLabel ++ c.origin ++ tplPClose
        ++ tplDestinationLabel ++ c.destination ++ tplPClose
        ++ tplCurrentLocationLabel ++ c.current_location ++ tplPClose
        ++ tplEstimatedDeliveryLabel ++ c.estimated_delivery ++ tplPClose,
      tplClose,
      by simp [renderSuccess, String.append_assoc]⟩⟩

/-- C1: for every fetch response parsed as JSON whose status field equals
success and whose consignment field holds an object c, the tracking submit
handler sets the tracking-result innerHTML to the success panel, and that
panel contains the literal value of each of the seven fields of c, each
preceded by its labeled heading. -/
theorem C1_success_render (pathname v : String) (data : TrackingData)
    (c : Consignment) (hs : data.status = "success")
    (hc : data.consignment = some c) :
    (trackingSubmit pathname v (FetchResult.resolved data)).innerHTML
        = some (renderSuccess c)
    ∧ containsSub (renderSuccess c)
        ("<h4>Tracking Details for " ++ c.consignment_number)
    ∧ containsSub (renderSuccess c)
        ("<p><strong>Status:</strong> " ++ c.status)
    ∧ containsSub (renderSuccess c)
        ("<p><strong>Origin:</strong> " ++ c.origin)
    ∧ containsSub (renderSuccess c)
        ("<p><strong>Destination:</strong> " ++ c.destination)
    ∧ containsSub (renderSuccess c)
        ("<p><strong>Current Location:</strong> " ++ c.current_location)
    ∧ containsSub (renderSuccess c)
        ("<p><strong>Estimated Delivery:</strong> " ++ c.estimated_delivery)
    ∧ containsSub (renderSuccess c)
        ("<p><em>Last Updated: " ++ c.updated_at) := by
  obtain ⟨h1, h2, h3, h4, h5, h6, h7⟩ := renderSuccess_contains_labeled c
  exact ⟨by simp [trackingSubmit, hs, hc], h1, h2, h3, h4, h5, h6, h7⟩

/-- Witness for C1 at a concrete successful response. -/
theorem C1_success_render_witness :
    sampleSuccessData.status = "success"
    ∧ sampleSuccessData.consignment = some sampleConsignment
    ∧ (trackingSubmit "/track-consignment/" "CN123"
        (FetchResult.resolved sampleSuccessData)).innerHTML
      = some (renderSuccess sampleConsignment) :=
  ⟨rfl, rfl,
    (C1_success_render "/track-consignment/" "CN123" sampleSuccessData
      sampleConsignment rfl rfl).1⟩

/-- C2: for every fetch response parsed as JSON whose status field is any
value other than success and whose message field is m, the tracking submit
handler sets the tracking-result innerHTML to exactly the failure panel
containing the text m and nothing else. -/
theorem C2_failure_render (pathname v : String) (data : TrackingData)
    (m : String) (hs : data.status ≠ "success")
    (hm : data.message = some m) :
    (trackingSubmit pathname v (FetchResult.resolved data)).innerHTML
      = some ("<div class=\"alert alert-danger\">" ++ m ++ "</div>") := by
  simp [trackingSubmit, hs, hm, jsStr, renderFailure]

/-- Witness for C2 at a concrete failure response. -/
theorem C2_failure_render_witness :
    ({ status := "failure", consignment := none,
       message := some "Not found" } : TrackingData).status ≠ "success"
    ∧ (trackingSubmit "/track-consignment/" "CN404"
        (FetchResult.resolved
          { status := "failure", consignment := none,
            message := some "Not found" })).innerHTML
      = some ("<div class=\"alert alert-danger\">" ++ "Not found" ++ "</div>") :=
  ⟨by decide,
    C2_failure_render "/track-consignment/" "CN404"
      { status := "failure", consignment := none, message := some "Not found" }
      "Not found" (by decide) rfl⟩

/-- C3: for every rejected network request or unparseable response body,
whatever the rejection reason, the tracking submit handler logs the error
to the console and sets the tracking-result innerHTML to the failure panel
with the single fixed message. -/
theorem C3_catch_render (pathname v err : String) :
    (trackingSubmit pathname v (FetchResult.rejected err)).consoleErrors
      = ["Error: " ++ err]
    ∧ (trackingSubmit pathname v (FetchResult.rejected err)).innerHTML
      = some "<div class=\"alert alert-danger\">An error occurred. Please try again.</div>" :=
  ⟨rfl, rfl⟩

/-- C4: for every non-empty input value v of the home-tracking-id field,
submitting the homepage search form navigates the browser to the tracking
page URL with v appended as the consignment-number query parameter. -/
theorem C4_home_redirect (v : String) (h : v ≠ "") :
    (homeSubmit v).location
      = some ("/track-consignment/?consignment_number=" ++ v) := by
  simp [homeSubmit, homeRedirectUrl, h]

/-- Witness for C4 at the concrete input ABC123. -/
theorem C4_home_redirect_witness :
    ("ABC123" : String) ≠ ""
    ∧ (homeSubmit "ABC123").location
      = some "/track-consignment/?consignment_number=ABC123" :=
  ⟨by decide, by rw [C4_home_redirect "ABC123" (by decide)]; rfl⟩

/-- C5: when the splash element is present, the load handler schedules
opacity 0 at 3000 ms and display none at 3000 plus 1000 ms, so the element
becomes display none no earlier than 3000 ms and no later than 4000 ms
after load. -/
theorem C5_splash_timing (splashPresent : Bool) (h : splashPresent = true) :
    splashLoadActions splashPresent
      = [(3000, ("opacity", "0")), (3000 + 1000, ("display", "none"))]
    ∧ ∀ t pv, (t, pv) ∈ splashLoadActions splashPresent →
        pv = ("display", "none") → 3000 ≤ t ∧ t ≤ 4000 := by
  subst h
  refine ⟨rfl, ?_⟩
  intro t pv ht hpv
  have hmem : (t, pv) ∈
      [((3000 : Nat), ("opacity", "0")), (3000 + 1000, ("display", "none"))] := ht
  rcases List.mem_cons.mp hmem with h1 | h2
  · rw [hpv] at h1
    have hsnd : (("display", "none") : String × String) = ("opacity", "0") :=
      congrArg Prod.snd h1
    exact absurd hsnd (by decide)
  · rcases List.mem_cons.mp h2 with h3 | h4
    · have hti : t = 4000 := congrArg Prod.fst h3
      omega
    · exact absurd h4 (List.not_mem_nil _)

/-- Witness for C5 with the splash element present. -/
theorem C5_splash_timing_witness :
    splashLoadActions true
      = [(3000, ("opacity", "0")), (3000 + 1000, ("display", "none"))] :=
  (C5_splash_timing true rfl).1

/-- C6: submitting the homepage search form with an empty input value
produces no navigation and renders no message: beyond suppressing the
default navigation, the handler performs no state change. -/
theorem C6_home_empty_noop :
    homeSubmit "" =
      { defaultPrevented := true, requests := [], innerHTML := none,
        consoleErrors := [], location := none } := by
  simp [homeSubmit]

/-- C7: for every submission of the tracking form with input value v and
every fetch outcome, the handler issues exactly one GET request, whose URL
is the current pathname followed by the consignment-number query
parameter; the resolved branch consumes the body parsed as JSON. -/
theorem C7_single_get (pathname v : String) (fetched : FetchResult) :
    (trackingSubmit pathname v fetched).requests
      = [{ method := "GET",
           url := pathname ++ "?consignment_number=" ++ v }] := by
  cases fetched with
  | resolved data =>
    by_cases hs : data.status = "success"
    · cases hc : data.consignment <;> simp [trackingSubmit, fetchUrl, hs, hc]
    · simp [trackingSubmit, fetchUrl, hs]
  | rejected err => rfl

/-- C8: the success renderer performs no HTML escaping: for every
consignment object c, each of the seven field values of c appears
verbatim, character for character, as a contiguous substring of the string
the handler assigns to the tracking-result innerHTML. -/
theorem C8_no_escaping (pathname v : String) (msg : Option String)
    (c : Consignment) :
    (trackingSubmit pathname v
        (FetchResult.resolved
          { status := "success", consignment := some c,
            message := msg })).innerHTML
      = some (renderSuccess c)
    ∧ containsSub (renderSuccess c) c.consignment_number
    ∧ containsSub (renderSuccess c) c.status
    ∧ containsSub (renderSuccess c) c.origin
    ∧ containsSub (renderSuccess c) c.destination
    ∧ containsSub (renderSuccess c) c.current_location
    ∧ containsSub (renderSuccess c) c.estimated_delivery
    ∧ containsSub (renderSuccess c) c.updated_at := by
  obtain ⟨h1, h2, h3, h4, h5, h6, h7⟩ := renderSuccess_contains_labeled c
  exact ⟨by simp [trackingSubmit],
    containsSub_drop_label _ _ _ h1,
    containsSub_drop_label _ _ _ h2,
    containsSub_drop_label _ _ _ h3,
    containsSub_drop_label _ _ _ h4,
    containsSub_drop_label _ _ _ h5,
    containsSub_drop_label _ _ _ h6,
    containsSub_drop_label _ _ _ h7⟩

/-- C9: both query URLs are built by raw string concatenation with no
URL-encoding of the input value, so for inputs containing an ampersand or
a hash the effective consignment-number query parameter received by the
backend differs from the typed value. -/
theorem C9_no_url_encoding :
    (∀ pathname v, fetchUrl pathname v
        = pathname ++ "?consignment_number=" ++ v)
    ∧ (∀ v, homeRedirectUrl v
        = "/track-consignment/?consignment_number=" ++ v)
    ∧ paramValue (homeRedirectUrl "a&b") "consignment_number" = some "a"
    ∧ paramValue (homeRedirectUrl "a&b") "consignment_number" ≠ some "a&b"
    ∧ paramValue (fetchUrl "/track-consignment/" "a#b") "consignment_number"
        = some "a"
    ∧ paramValue (fetchUrl "/track-consignment/" "a#b") "consignment_number"
        ≠ some "a#b" :=
  ⟨fun _ _ => rfl, fun _ => rfl, by decide, by decide, by decide, by decide⟩

/-- C10: both submit handlers suppress the default form navigation
unconditionally, and the tracking handler changes the page location in no
branch, while an empty homepage submission navigates nowhere either. -/
theorem C10_prevent_default (pathname v w : String) (fetched : FetchResult) :
    (trackingSubmit pathname v fetched).defaultPrevented = true
    ∧ (trackingSubmit pathname v fetched).location = none
    ∧ (homeSubmit w).defaultPrevented = true
    ∧ (homeSubmit "").location = none := by
  refine ⟨?_, ?_, rfl, by simp [homeSubmit]⟩ <;>
    · cases fetched with
      | resolved data =>
        by_cases hs : data.status = "success"
        · cases hc : data.consignment <;> simp [trackingSubmit, hs, hc]
        · simp [trackingSubmit, hs]
      | rejected err => rfl

end DeepLogistics
